import Mathlib

/-!
Verification development for the g-maps facade module (src/g-maps.js).

The module wraps the Google Maps widget library behind a small fluent
facade: a constructor building default widget options, marker CRUD
(addMarkers / setAllMap / clearMarkers / showMarkers / deleteMarkers),
callback registration (registerMapClickEvent / registerMapZoomEvent),
dispatch (onMapInteract), zoom proxying (setZoom / getZoom), and init.

The embedding models JavaScript object identity explicitly: markers and
widgets live in a World store (lists indexed by creation order), and the
facade holds ids into that store, mirroring JS references.  Callbacks are
opaque callable values identified by a numeric id; an invocation trace
records (callback id, argument) pairs, so order and argument of every
call are observable.  JS numbers carry no arithmetic in this module, so
they are modelled exactly by rationals.
-/

namespace GMaps

/-- Numbers as this module passes them around (coordinates, zoom levels).
The source does no arithmetic on them, they are opaque payloads. -/
abbrev JNum := Rat

/-- A dynamically typed JavaScript value as far as this module inspects
one: the source only ever tests typeof v for 'number' and 'function'.
Callable values are identified by a numeric id so invocations can be
traced. -/
inductive JVal where
  | num (n : JNum)
  | str (s : String)
  | bool (b : Bool)
  | undef
  | fn (id : Nat)
  | obj
deriving DecidableEq

/-- Models the JS test typeof v === 'number'. -/
def typeofIsNumber : JVal → Bool
  | JVal.num _ => true
  | _ => false

/-- Models the JS test typeof v === 'function'. -/
def typeofIsFunction : JVal → Bool
  | JVal.fn _ => true
  | _ => false

/-- One element of the coordsArray argument of addMarkers: a latLng pair
plus the caller's opaque data payload. -/
structure MarkerEntry (δ : Type) where
  latLng : JNum × JNum
  data : δ
deriving DecidableEq

/-- A google.maps.Marker object as created by addMarkers: position from
the entry's latLng, the facade's icon, a visibility target (the widget
it is shown on, or none for null), and the data field which the source
sets to the whole coordsArray entry (line data : coordsArray[i]). -/
structure Marker (δ : Type) where
  position : JNum × JNum
  icon : String
  map : Option Nat
  data : MarkerEntry δ
deriving DecidableEq

/-- One registration in the google.maps.event registry, as created by
assignMarkerEvent: target marker id, event name, and the callback that
the installed closure will invoke with this.data when the event fires. -/
structure Listener where
  target : Nat
  eventName : String
  callback : JVal
deriving DecidableEq

/-- A google.maps.Map widget instance (only the state this module
touches: zoom and center). -/
structure Widget where
  zoom : JNum
  center : JNum × JNum
deriving DecidableEq

/-- The external library's mutable object graph: all created markers and
widgets (ids are creation indices, mirroring JS reference identity), the
marker event registry, and the widget-level event registrations made by
init (widget id, event name). -/
structure World (δ : Type) where
  store : List (Marker δ)
  listeners : List Listener
  widgets : List Widget
  mapListeners : List (Nat × String)
deriving DecidableEq

/-- google.maps.ZoomControlStyle constants. -/
inductive ZoomControlStyle where
  | LARGE
  | SMALL
  | DEFAULT
deriving DecidableEq

/-- google.maps.ControlPosition constants. -/
inductive ControlPosition where
  | RIGHT_TOP
  | LEFT_TOP
  | RIGHT_BOTTOM
deriving DecidableEq

/-- The zoomControlOptions sub-object of the widget options. -/
structure ZoomControlOptions where
  style : ZoomControlStyle
  position : ControlPosition
deriving DecidableEq

/-- The widget options object the constructor builds (this.mapOptions). -/
structure MapOptions where
  zoom : JNum
  disableDefaultUI : Bool
  scrollwheel : Bool
  zoomControl : Bool
  center : JNum × JNum
  zoomControlOptions : ZoomControlOptions
  scaleControl : Bool
deriving DecidableEq

/-- The options object a caller may pass to the constructor.  Each field
is optional (absent keys are none); unrecognized records keys the caller
supplied that the module never reads. -/
structure CtorOptions where
  icon : Option String := none
  zoom : Option JNum := none
  disableDefaultUI : Option Bool := none
  scrollwheel : Option Bool := none
  zoomControl : Option Bool := none
  center : Option (JNum × JNum) := none
  zoomControlOptions : Option ZoomControlOptions := none
  scaleControl : Option Bool := none
  unrecognized : List String := []
deriving DecidableEq

/-- The Map facade state: the widget reference (this.map, none until
init), the marker handle list (this.markers, ids into World.store), the
two callback lists (ids of registered callables), the DOM element, the
icon path, and the widget options built by the constructor. -/
structure Map (δ : Type) where
  map : Option Nat
  markers : List Nat
  mapClickCallbacks : List Nat
  mapZoomCallbacks : List Nat
  elem : Nat
  icon : String
  mapOptions : MapOptions
deriving DecidableEq

/-- The module-level defaultOptions object: only an icon path. -/
def defaultIcon : String := "map-pin.png"

/-- JavaScript v || d on an optional string: an absent or falsy (empty)
value falls back to the default.  Models options.icon || defaultOptions.icon. -/
def jsOrString (v : Option String) (d : String) : String :=
  match v with
  | some s => if s.isEmpty then d else s
  | none => d

/-- The mapOptions literal the constructor builds.  Every field is a
hard-coded constant; the source's comment says to extend this object to
accept custom options, but no such extension is performed. -/
def defaultMapOptions : MapOptions :=
  { zoom := 4
    disableDefaultUI := true
    scrollwheel := false
    zoomControl := true
    center := (47.147354, 16.158813)
    zoomControlOptions := { style := ZoomControlStyle.LARGE, position := ControlPosition.RIGHT_TOP }
    scaleControl := false }

/-- The constructor function Map(elem, options): null widget, empty
marker and callback lists, icon from options with default fallback, and
the fixed mapOptions literal.  No other key of options is read. -/
def Map.construct {δ : Type} (elem : Nat) (options : CtorOptions) : Map δ :=
  { map := none
    markers := []
    mapClickCallbacks := []
    mapZoomCallbacks := []
    elem := elem
    icon := jsOrString options.icon defaultIcon
    mapOptions := defaultMapOptions }

/-- Replaces the i-th element of a list by f applied to it; out-of-range
indices leave the list unchanged.  Models in-place mutation of one
object in a store. -/
def listModify {α : Type} (l : List α) (i : Nat) (f : α → α) : List α :=
  match l, i with
  | [], _ => []
  | a :: t, 0 => f a :: t
  | a :: t, Nat.succ i => a :: listModify t i f

/-- The marker object new google.maps.Marker({...}) built for one entry
inside the addMarkers loop: position from the entry's latLng, the
facade's icon and current widget, and data set to the whole entry. -/
def newMarker {δ : Type} (m : Map δ) (e : MarkerEntry δ) : Marker δ :=
  { position := e.latLng, icon := m.icon, map := m.map, data := e }

/-- Map.prototype.assignMarkerEvent: registers a listener on the given
marker in the google.maps.event registry (the installed closure is
modelled by fireListener below). -/
def Map.assignMarkerEvent {δ : Type} (w : World δ) (markerId : Nat) (event : String) (callback : JVal) : World δ :=
  { w with listeners := w.listeners ++ [{ target := markerId, eventName := event, callback := callback }] }

/-- Map.prototype.addMarkers: for each entry of coordsArray in order,
creates a marker (appended to the store, its id the store index), calls
assignMarkerEvent(marker, click, callback), and pushes the marker onto
this.markers.  Returns this. -/
def Map.addMarkers {δ : Type} (w : World δ) (m : Map δ) (coordsArray : List (MarkerEntry δ)) (callback : JVal) : World δ × Map δ :=
  match coordsArray with
  | [] => (w, m)
  | e :: rest =>
    let id := w.store.length
    let wS : World δ := { w with store := w.store ++ [newMarker m e] }
    let wL := Map.assignMarkerEvent wS id "click" callback
    Map.addMarkers wL { m with markers := m.markers ++ [id] } rest callback

/-- The closure assignMarkerEvent installs: when the event fires, the
library invokes it with JS this bound to the listener's target marker,
and the body calls callback(this.data) when the callback is a function
(silently nothing otherwise).  The result is the invocation trace as
(callback id, argument) pairs; note the argument is the marker's data
field. -/
def fireListener {δ : Type} (w : World δ) (l : Listener) : List (Nat × MarkerEntry δ) :=
  match l.callback with
  | JVal.fn fid =>
    match w.store[l.target]? with
    | some mk => [(fid, mk.data)]
    | none => []
  | _ => []

/-- Fires the li-th registered listener (no-op for an absent index). -/
def fireListenerAt {δ : Type} (w : World δ) (li : Nat) : List (Nat × MarkerEntry δ) :=
  match w.listeners[li]? with
  | some l => fireListener w l
  | none => []

/-- The loop body of setAllMap: this.markers[i].setMap(tgt) for each
stored id in order, mutating the store. -/
def setMapLoop {δ : Type} (store : List (Marker δ)) (ids : List Nat) (tgt : Option Nat) : List (Marker δ) :=
  match ids with
  | [] => store
  | id :: rest => setMapLoop (listModify store id (fun mk => { mk with map := tgt })) rest tgt

/-- Map.prototype.setAllMap: sets the visibility target of every marker
in this.markers to the argument (a widget id, or none for null) and
returns this; the facade state itself is untouched. -/
def Map.setAllMap {δ : Type} (w : World δ) (m : Map δ) (tgt : Option Nat) : World δ × Map δ :=
  ({ w with store := setMapLoop w.store m.markers tgt }, m)

/-- Map.prototype.clearMarkers: this.setAllMap(null); return this. -/
def Map.clearMarkers {δ : Type} (w : World δ) (m : Map δ) : World δ × Map δ :=
  Map.setAllMap w m none

/-- Map.prototype.showMarkers: this.setAllMap(this.map); return this. -/
def Map.showMarkers {δ : Type} (w : World δ) (m : Map δ) : World δ × Map δ :=
  Map.setAllMap w m m.map

/-- Map.prototype.deleteMarkers: this.clearMarkers(); this.markers = [];
return this. -/
def Map.deleteMarkers {δ : Type} (w : World δ) (m : Map δ) : World δ × Map δ :=
  let p := Map.clearMarkers w m
  (p.1, { p.2 with markers := [] })

/-- Map.prototype.registerMapZoomEvent: push the callback onto
this.mapZoomCallbacks when typeof callback === 'function' (the fn
constructor), otherwise do nothing; return this. -/
def Map.registerMapZoomEvent {δ : Type} (m : Map δ) (callback : JVal) : Map δ :=
  match callback with
  | JVal.fn fid => { m with mapZoomCallbacks := m.mapZoomCallbacks ++ [fid] }
  | _ => m

/-- Map.prototype.registerMapClickEvent: push the callback onto
this.mapClickCallbacks when typeof callback === 'function', otherwise do
nothing; return this. -/
def Map.registerMapClickEvent {δ : Type} (m : Map δ) (callback : JVal) : Map δ :=
  match callback with
  | JVal.fn fid => { m with mapClickCallbacks := m.mapClickCallbacks ++ [fid] }
  | _ => m

/-- The two property names onMapInteract is called with (the source
indexes this[arrayName]). -/
inductive ListName where
  | mapClickCallbacks
  | mapZoomCallbacks
deriving DecidableEq

/-- The property access this[arrayName]. -/
def Map.indexList {δ : Type} (m : Map δ) : ListName → List Nat
  | ListName.mapClickCallbacks => m.mapClickCallbacks
  | ListName.mapZoomCallbacks => m.mapZoomCallbacks

/-- The loop of onMapInteract: this[arrayName][i](args) for i from 0 to
length, producing the invocation trace in call order. -/
def callLoop {π : Type} (cbs : List Nat) (args : π) : List (Nat × π) :=
  match cbs with
  | [] => []
  | c :: rest => (c, args) :: callLoop rest args

/-- Map.prototype.onMapInteract: invokes every callback of the named
list with args, in list order, and returns this.  The second component
is the invocation trace. -/
def Map.onMapInteract {δ π : Type} (m : Map δ) (arrayName : ListName) (args : π) : Map δ × List (Nat × π) :=
  (m, callLoop (m.indexList arrayName) args)

/-- Runtime errors of the JavaScript embedding. -/
inductive JsError where
  | referenceError
  | typeError
  | mapsLoadError
deriving DecidableEq

/-- Map.prototype.setZoom: if typeof zoom === 'number' then
this.map.setZoom(zoom) (a TypeError when this.map is null), otherwise
nothing; return this. -/
def Map.setZoom {δ : Type} (w : World δ) (m : Map δ) (zoom : JVal) : Except JsError (World δ × Map δ) :=
  match zoom with
  | JVal.num n =>
    match m.map with
    | some wid => Except.ok ({ w with widgets := listModify w.widgets wid (fun wg => { wg with zoom := n }) }, m)
    | none => Except.error JsError.typeError
  | _ => Except.ok (w, m)

/-- Map.prototype.setCenter: this.map.setCenter(new LatLng(latLng[0],
latLng[1])); return this.  TypeError when this.map is null. -/
def Map.setCenter {δ : Type} (w : World δ) (m : Map δ) (latLng : JNum × JNum) : Except JsError (World δ × Map δ) :=
  match m.map with
  | some wid => Except.ok ({ w with widgets := listModify w.widgets wid (fun wg => { wg with center := latLng }) }, m)
  | none => Except.error JsError.typeError

/-- Map.prototype.getZoom: return this.map.getZoom(). -/
def Map.getZoom {δ : Type} (w : World δ) (m : Map δ) : Except JsError JNum :=
  match m.map with
  | some wid =>
    match w.widgets[wid]? with
    | some wg => Except.ok wg.zoom
    | none => Except.error JsError.typeError
  | none => Except.error JsError.typeError

/-- Map.prototype.init: constructs the widget from this.mapOptions
(appended to the widget store, this.map set to its id) and registers the
widget click and zoom_changed events that dispatch to onMapInteract. -/
def Map.init {δ : Type} (w : World δ) (m : Map δ) : World δ × Map δ :=
  let wid := w.widgets.length
  ({ w with widgets := w.widgets ++ [{ zoom := m.mapOptions.zoom, center := m.mapOptions.center }]
            mapListeners := w.mapListeners ++ [(wid, "click"), (wid, "zoom_changed")] },
   { m with map := some wid })

/-- The state of the global identifier google after the async loader
callback runs: never declared (script failed entirely), declared but
nullish, or an object whose maps namespace may or may not be present. -/
inductive GoogleGlobal where
  | undeclared
  | nullish
  | object (mapsPresent : Bool)
deriving DecidableEq

/-- The require callback guarding the module: it evaluates the JS
condition with short-circuiting, throwing the custom load error when the
condition is true, and otherwise defines Map and resolves the deferred
with it (the ok true result means the constructor was published).
Evaluation per JS semantics: when google is undeclared the very access
throws a ReferenceError; when google is declared but nullish the first
conjunct is true and evaluating google.maps throws a TypeError; when
google is any object the first conjunct is false and the conjunction
short-circuits to false, so the Map constructor is published no matter
whether google.maps exists. -/
def requireCallback (google : GoogleGlobal) : Except JsError Bool :=
  match google with
  | GoogleGlobal.undeclared => Except.error JsError.referenceError
  | GoogleGlobal.nullish => Except.error JsError.typeError
  | GoogleGlobal.object _ => Except.ok true

/-- A world with no markers, listeners or widgets yet. -/
def emptyWorld (δ : Type) : World δ :=
  { store := [], listeners := [], widgets := [], mapListeners := [] }

/-- The list of ids a batch of n creations starting at index base gets. -/
def idsFrom : Nat → Nat → List Nat
  | _, 0 => []
  | base, Nat.succ n => base :: idsFrom (base + 1) n

/-- The facade operations claim C10 quantifies over. -/
inductive Op (δ : Type) where
  | addMarkers (entries : List (MarkerEntry δ)) (cb : JVal)
  | registerClick (cb : JVal)
  | registerZoom (cb : JVal)

/-- Applies one operation to a world and facade. -/
def stepOp {δ : Type} (s : World δ × Map δ) (op : Op δ) : World δ × Map δ :=
  match op with
  | Op.addMarkers es cb => Map.addMarkers s.1 s.2 es cb
  | Op.registerClick cb => (s.1, Map.registerMapClickEvent s.2 cb)
  | Op.registerZoom cb => (s.1, Map.registerMapZoomEvent s.2 cb)

/-- Runs a sequence of operations left to right. -/
def runOps {δ : Type} (s : World δ × Map δ) (ops : List (Op δ)) : World δ × Map δ :=
  ops.foldl stepOp s

/-- The id of a callable argument as a singleton, empty otherwise. -/
def callableIds (cb : JVal) : List Nat :=
  match cb with
  | JVal.fn fid => [fid]
  | _ => []

/-- The click callbacks a sequence of operations registers (callable
arguments only, in order). -/
def opsClick {δ : Type} : List (Op δ) → List Nat
  | [] => []
  | Op.registerClick cb :: t => callableIds cb ++ opsClick t
  | _ :: t => opsClick t

/-- The zoom callbacks a sequence of operations registers. -/
def opsZoom {δ : Type} : List (Op δ) → List Nat
  | [] => []
  | Op.registerZoom cb :: t => callableIds cb ++ opsZoom t
  | _ :: t => opsZoom t

/-- All marker entries a sequence of operations adds, in order. -/
def opsEntries {δ : Type} : List (Op δ) → List (MarkerEntry δ)
  | [] => []
  | Op.addMarkers es _ :: t => es ++ opsEntries t
  | _ :: t => opsEntries t

/-- The data payloads carried by the facade's marker handles, resolved
through the store. -/
def markersData {δ : Type} (w : World δ) (m : Map δ) : List (Option (MarkerEntry δ)) :=
  m.markers.map (fun id => (w.store[id]?).map Marker.data)

/-! Helper lemmas about lists and the store. -/

lemma listModify_length {α : Type} (l : List α) (i : Nat) (f : α → α) :
    (listModify l i f).length = l.length := by
  induction l generalizing i with
  | nil => rfl
  | cons a t ih =>
    cases i with
    | zero => rfl
    | succ i => simp [listModify, ih]

lemma listModify_getElem? {α : Type} (l : List α) (i j : Nat) (f : α → α) :
    (listModify l i f)[j]? = if j = i then (l[j]?).map f else l[j]? := by
  induction l generalizing i j with
  | nil => simp [listModify]
  | cons a t ih =>
    cases i with
    | zero =>
      cases j with
      | zero => simp [listModify]
      | succ k => simp [listModify]
    | succ i =>
      cases j with
      | zero => simp [listModify]
      | succ k => simp [listModify, ih]

lemma getElem?_append_add {α : Type} (l1 l2 : List α) (i : Nat) :
    (l1 ++ l2)[l1.length + i]? = l2[i]? := by
  induction l1 with
  | nil => simp
  | cons a t ih =>
    have h : (a :: t).length + i = (t.length + i) + 1 := by simp; omega
    rw [h]
    simpa using ih

lemma map_congr_mem {α β : Type} (l : List α) (f g : α → β) (h : ∀ a ∈ l, f a = g a) :
    l.map f = l.map g := by
  induction l with
  | nil => rfl
  | cons a t ih =>
    simp only [List.map_cons, h a (by simp)]
    rw [ih (fun x hx => h x (by simp [hx]))]

lemma idsFrom_length (base n : Nat) : (idsFrom base n).length = n := by
  induction n generalizing base with
  | zero => rfl
  | succ n ih => simp [idsFrom, ih]

lemma idsFrom_getElem? (base n i : Nat) (h : i < n) :
    (idsFrom base n)[i]? = some (base + i) := by
  induction n generalizing base i with
  | zero => omega
  | succ n ih =>
    cases i with
    | zero => simp [idsFrom]
    | succ k =>
      have hk : k < n := by omega
      have := ih (base + 1) k hk
      simp only [idsFrom, List.getElem?_cons_succ, this]
      congr 1
      omega

lemma idsFrom_lt (base n : Nat) : ∀ id ∈ idsFrom base n, id < base + n := by
  induction n generalizing base with
  | zero => simp [idsFrom]
  | succ n ih =>
    intro id hid
    simp only [idsFrom, List.mem_cons] at hid
    rcases hid with h | h
    · omega
    · have := ih (base + 1) id h
      omega

/-! Characterization of the marker batch loop. -/

lemma newMarker_markersUpdate {δ : Type} (m : Map δ) (l : List Nat) :
    newMarker (δ := δ) { m with markers := l } = newMarker m := rfl

lemma addMarkers_snd {δ : Type} (w : World δ) (m : Map δ) (es : List (MarkerEntry δ)) (cb : JVal) :
    (Map.addMarkers w m es cb).2 = { m with markers := m.markers ++ idsFrom w.store.length es.length } := by
  induction es generalizing w m with
  | nil => simp [Map.addMarkers, idsFrom]
  | cons e t ih =>
    simp only [Map.addMarkers, Map.assignMarkerEvent]
    rw [ih]
    simp [idsFrom, List.append_assoc]

lemma addMarkers_fst_store {δ : Type} (w : World δ) (m : Map δ) (es : List (MarkerEntry δ)) (cb : JVal) :
    (Map.addMarkers w m es cb).1.store = w.store ++ es.map (newMarker m) := by
  induction es generalizing w m with
  | nil => simp [Map.addMarkers]
  | cons e t ih =>
    simp only [Map.addMarkers, Map.assignMarkerEvent]
    rw [ih]
    simp [newMarker_markersUpdate, List.append_assoc]

lemma addMarkers_fst_listeners {δ : Type} (w : World δ) (m : Map δ) (es : List (MarkerEntry δ)) (cb : JVal) :
    (Map.addMarkers w m es cb).1.listeners =
      w.listeners ++ (idsFrom w.store.length es.length).map
        (fun id => { target := id, eventName := "click", callback := cb }) := by
  induction es generalizing w m with
  | nil => simp [Map.addMarkers, idsFrom]
  | cons e t ih =>
    simp only [Map.addMarkers, Map.assignMarkerEvent]
    rw [ih]
    simp [idsFrom, List.append_assoc]

lemma addMarkers_fst_widgets {δ : Type} (w : World δ) (m : Map δ) (es : List (MarkerEntry δ)) (cb : JVal) :
    (Map.addMarkers w m es cb).1.widgets = w.widgets := by
  induction es generalizing w m with
  | nil => rfl
  | cons e t ih =>
    simp only [Map.addMarkers, Map.assignMarkerEvent]
    rw [ih]

lemma addMarkers_fst_mapListeners {δ : Type} (w : World δ) (m : Map δ) (es : List (MarkerEntry δ)) (cb : JVal) :
    (Map.addMarkers w m es cb).1.mapListeners = w.mapListeners := by
  induction es generalizing w m with
  | nil => rfl
  | cons e t ih =>
    simp only [Map.addMarkers, Map.assignMarkerEvent]
    rw [ih]

/-! Characterization of setAllMap's loop over the store. -/

lemma setMapLoop_length {δ : Type} (store : List (Marker δ)) (ids : List Nat) (tgt : Option Nat) :
    (setMapLoop store ids tgt).length = store.length := by
  induction ids generalizing store with
  | nil => rfl
  | cons id rest ih => simp [setMapLoop, ih, listModify_length]

lemma setMapLoop_getElem? {δ : Type} (store : List (Marker δ)) (ids : List Nat) (tgt : Option Nat) (j : Nat) :
    (setMapLoop store ids tgt)[j]? =
      (store[j]?).map (fun mk => if j ∈ ids then { mk with map := tgt } else mk) := by
  induction ids generalizing store with
  | nil =>
    simp only [setMapLoop, List.not_mem_nil, if_false]
    cases store[j]? <;> rfl
  | cons id rest ih =>
    simp only [setMapLoop]
    rw [ih, listModify_getElem?]
    by_cases hj : j = id
    · subst hj
      cases hs : store[j]? with
      | none => simp
      | some mk =>
        by_cases hr : j ∈ rest <;> simp [hr]
    · cases hs : store[j]? with
      | none => simp
      | some mk =>
        by_cases hr : j ∈ rest <;> simp [hj, hr]

/-! Lookups of a freshly appended batch. -/

lemma batch_lookup {δ : Type} (pre l : List (Marker δ)) :
    (idsFrom pre.length l.length).map (fun id => ((pre ++ l)[id]?).map Marker.data) =
      l.map (fun mk => some mk.data) := by
  induction l generalizing pre with
  | nil => simp [idsFrom]
  | cons a t ih =>
    have h0 : (pre ++ a :: t)[pre.length]? = some a := by
      simpa using getElem?_append_add pre (a :: t) 0
    have hpre : pre.length + 1 = (pre ++ [a]).length := by simp
    have happ : pre ++ a :: t = (pre ++ [a]) ++ t := by simp
    simp only [List.length_cons, idsFrom, List.map_cons, h0, Option.map_some', List.cons.injEq,
      true_and]
    calc (idsFrom (pre.length + 1) t.length).map
           (fun id => ((pre ++ a :: t)[id]?).map Marker.data)
        = (idsFrom (pre ++ [a]).length t.length).map
           (fun id => (((pre ++ [a]) ++ t)[id]?).map Marker.data) := by rw [hpre]; simp only [happ]
      _ = t.map (fun mk => some mk.data) := ih (pre ++ [a])

/-! Callback registration and dispatch. -/

lemma foldl_registerClick {δ : Type} (m : Map δ) (fids : List Nat) :
    fids.foldl (fun acc f => Map.registerMapClickEvent acc (JVal.fn f)) m =
      { m with mapClickCallbacks := m.mapClickCallbacks ++ fids } := by
  induction fids generalizing m with
  | nil => simp
  | cons f t ih =>
    rw [List.foldl_cons, ih]
    simp [Map.registerMapClickEvent, List.append_assoc]

lemma foldl_registerZoom {δ : Type} (m : Map δ) (fids : List Nat) :
    fids.foldl (fun acc f => Map.registerMapZoomEvent acc (JVal.fn f)) m =
      { m with mapZoomCallbacks := m.mapZoomCallbacks ++ fids } := by
  induction fids generalizing m with
  | nil => simp
  | cons f t ih =>
    rw [List.foldl_cons, ih]
    simp [Map.registerMapZoomEvent, List.append_assoc]

lemma callLoop_eq_map {π : Type} (cbs : List Nat) (P : π) :
    callLoop cbs P = cbs.map (fun c => (c, P)) := by
  induction cbs with
  | nil => rfl
  | cons c t ih => simp [callLoop, ih]

lemma registerMapClickEvent_fields {δ : Type} (m : Map δ) (cb : JVal) :
    (Map.registerMapClickEvent m cb).markers = m.markers ∧
    (Map.registerMapClickEvent m cb).mapClickCallbacks = m.mapClickCallbacks ++ callableIds cb ∧
    (Map.registerMapClickEvent m cb).mapZoomCallbacks = m.mapZoomCallbacks := by
  cases cb <;> simp [Map.registerMapClickEvent, callableIds]

lemma registerMapZoomEvent_fields {δ : Type} (m : Map δ) (cb : JVal) :
    (Map.registerMapZoomEvent m cb).markers = m.markers ∧
    (Map.registerMapZoomEvent m cb).mapZoomCallbacks = m.mapZoomCallbacks ++ callableIds cb ∧
    (Map.registerMapZoomEvent m cb).mapClickCallbacks = m.mapClickCallbacks := by
  cases cb <;> simp [Map.registerMapZoomEvent, callableIds]

/-! Effect of one addMarkers batch on the resolved handle data. -/

lemma markersData_addMarkers {δ : Type} (w : World δ) (m : Map δ) (es : List (MarkerEntry δ)) (cb : JVal)
    (hb : ∀ id ∈ m.markers, id < w.store.length) :
    markersData (Map.addMarkers w m es cb).1 (Map.addMarkers w m es cb).2 =
      markersData w m ++ es.map some := by
  unfold markersData
  rw [addMarkers_snd, addMarkers_fst_store]
  simp only [List.map_append]
  congr 1
  · refine map_congr_mem _ _ _ (fun id hid => ?_)
    have hlook : (w.store ++ es.map (newMarker m))[id]? = w.store[id]? := by
      rw [List.getElem?_append]
      exact if_pos (hb id hid)
    rw [hlook]
  · have h1 : (idsFrom w.store.length es.length).map
        (fun id => ((w.store ++ es.map (newMarker m))[id]?).map Marker.data) =
        (es.map (newMarker m)).map (fun mk => some mk.data) := by
      have := batch_lookup w.store (es.map (newMarker m))
      simpa using this
    rw [h1]
    simp [newMarker]

lemma addMarkers_bound {δ : Type} (w : World δ) (m : Map δ) (es : List (MarkerEntry δ)) (cb : JVal)
    (hb : ∀ id ∈ m.markers, id < w.store.length) :
    ∀ id ∈ (Map.addMarkers w m es cb).2.markers, id < (Map.addMarkers w m es cb).1.store.length := by
  intro id hid
  rw [addMarkers_snd] at hid
  rw [addMarkers_fst_store]
  simp only [List.mem_append] at hid
  simp only [List.length_append, List.length_map]
  rcases hid with h | h
  · have := hb id h
    omega
  · have := idsFrom_lt w.store.length es.length id h
    omega

lemma addMarkers_callbacks {δ : Type} (w : World δ) (m : Map δ) (es : List (MarkerEntry δ)) (cb : JVal) :
    (Map.addMarkers w m es cb).2.mapClickCallbacks = m.mapClickCallbacks ∧
    (Map.addMarkers w m es cb).2.mapZoomCallbacks = m.mapZoomCallbacks := by
  rw [addMarkers_snd]
  exact ⟨rfl, rfl⟩

/-! The invariant of claim C10 over any operation sequence. -/

lemma runOps_invariant {δ : Type} (ops : List (Op δ)) (w : World δ) (m : Map δ)
    (hb : ∀ id ∈ m.markers, id < w.store.length) :
    (runOps (w, m) ops).2.mapClickCallbacks = m.mapClickCallbacks ++ opsClick ops ∧
    (runOps (w, m) ops).2.mapZoomCallbacks = m.mapZoomCallbacks ++ opsZoom ops ∧
    markersData (runOps (w, m) ops).1 (runOps (w, m) ops).2 =
      markersData w m ++ (opsEntries ops).map some ∧
    (∀ id ∈ (runOps (w, m) ops).2.markers, id < (runOps (w, m) ops).1.store.length) := by
  induction ops generalizing w m with
  | nil => simpa [runOps, opsClick, opsZoom, opsEntries, markersData] using hb
  | cons op t ih =>
    have hstep : runOps (w, m) (op :: t) = runOps (stepOp (w, m) op) t := by
      simp [runOps]
    rw [hstep]
    cases op with
    | addMarkers es cb =>
      have hb2 := addMarkers_bound w m es cb hb
      have hmd := markersData_addMarkers w m es cb hb
      have hcb := addMarkers_callbacks w m es cb
      obtain ⟨h1, h2, h3, h4⟩ := ih (Map.addMarkers w m es cb).1 (Map.addMarkers w m es cb).2 hb2
      refine ⟨?_, ?_, ?_, ?_⟩
      · rw [show stepOp (w, m) (Op.addMarkers es cb) = Map.addMarkers w m es cb from rfl]
        rw [show runOps (Map.addMarkers w m es cb) t = runOps ((Map.addMarkers w m es cb).1, (Map.addMarkers w m es cb).2) t from rfl] at h1 ⊢
        rw [h1, hcb.1]
        simp [opsClick]
      · rw [show stepOp (w, m) (Op.addMarkers es cb) = Map.addMarkers w m es cb from rfl]
        rw [show runOps (Map.addMarkers w m es cb) t = runOps ((Map.addMarkers w m es cb).1, (Map.addMarkers w m es cb).2) t from rfl] at h2 ⊢
        rw [h2, hcb.2]
        simp [opsZoom]
      · rw [show stepOp (w, m) (Op.addMarkers es cb) = Map.addMarkers w m es cb from rfl]
        rw [show runOps (Map.addMarkers w m es cb) t = runOps ((Map.addMarkers w m es cb).1, (Map.addMarkers w m es cb).2) t from rfl] at h3 ⊢
        rw [h3, hmd]
        simp [opsEntries, List.append_assoc]
      · rw [show stepOp (w, m) (Op.addMarkers es cb) = Map.addMarkers w m es cb from rfl]
        rw [show runOps (Map.addMarkers w m es cb) t = runOps ((Map.addMarkers w m es cb).1, (Map.addMarkers w m es cb).2) t from rfl] at h4 ⊢
        exact h4
    | registerClick cb =>
      have hf := registerMapClickEvent_fields m cb
      have hb2 : ∀ id ∈ (Map.registerMapClickEvent m cb).markers, id < w.store.length := by
        intro id hid
        rw [hf.1] at hid
        exact hb id hid
      obtain ⟨h1, h2, h3, h4⟩ := ih w (Map.registerMapClickEvent m cb) hb2
      have hmd : markersData w (Map.registerMapClickEvent m cb) = markersData w m := by
        unfold markersData
        rw [hf.1]
      refine ⟨?_, ?_, ?_, ?_⟩
      · rw [show stepOp (w, m) (Op.registerClick cb) = (w, Map.registerMapClickEvent m cb) from rfl]
        rw [h1, hf.2.1]
        simp [opsClick, List.append_assoc]
      · rw [show stepOp (w, m) (Op.registerClick cb) = (w, Map.registerMapClickEvent m cb) from rfl]
        rw [h2, hf.2.2]
        simp [opsZoom]
      · rw [show stepOp (w, m) (Op.registerClick cb) = (w, Map.registerMapClickEvent m cb) from rfl]
        rw [h3, hmd]
        simp [opsEntries]
      · rw [show stepOp (w, m) (Op.registerClick cb) = (w, Map.registerMapClickEvent m cb) from rfl]
        exact h4
    | registerZoom cb =>
      have hf := registerMapZoomEvent_fields m cb
      have hb2 : ∀ id ∈ (Map.registerMapZoomEvent m cb).markers, id < w.store.length := by
        intro id hid
        rw [hf.1] at hid
        exact hb id hid
      obtain ⟨h1, h2, h3, h4⟩ := ih w (Map.registerMapZoomEvent m cb) hb2
      have hmd : markersData w (Map.registerMapZoomEvent m cb) = markersData w m := by
        unfold markersData
        rw [hf.1]
      refine ⟨?_, ?_, ?_, ?_⟩
      · rw [show stepOp (w, m) (Op.registerZoom cb) = (w, Map.registerMapZoomEvent m cb) from rfl]
        rw [h1, hf.2.2]
        simp [opsClick]
      · rw [show stepOp (w, m) (Op.registerZoom cb) = (w, Map.registerMapZoomEvent m cb) from rfl]
        rw [h2, hf.2.1]
        simp [opsZoom, List.append_assoc]
      · rw [show stepOp (w, m) (Op.registerZoom cb) = (w, Map.registerMapZoomEvent m cb) from rfl]
        rw [h3, hmd]
        simp [opsEntries]
      · rw [show stepOp (w, m) (Op.registerZoom cb) = (w, Map.registerMapZoomEvent m cb) from rfl]
        exact h4

/-! Firing helper lemmas. -/

lemma fireListenerAt_eq {δ : Type} (w : World δ) (li : Nat) (l : Listener)
    (hl : w.listeners[li]? = some l) : fireListenerAt w li = fireListener w l := by
  unfold fireListenerAt
  rw [hl]

lemma fireListener_fn {δ : Type} (w : World δ) (t : Nat) (ev : String) (fid : Nat) (mk : Marker δ)
    (hs : w.store[t]? = some mk) :
    fireListener w { target := t, eventName := ev, callback := JVal.fn fid } = [(fid, mk.data)] := by
  simp [fireListener, hs]

/-! Concrete inputs used by the witnesses. -/

/-- A fresh empty world. -/
def sampleWorld : World Nat := emptyWorld Nat

/-- A freshly constructed facade over element 0 with no options. -/
def sampleMap : Map Nat := Map.construct 0 {}

/-- A concrete two-entry batch. -/
def sampleEntries : List (MarkerEntry Nat) :=
  [{ latLng := (1, 2), data := 10 }, { latLng := (3, 4), data := 20 }]

/-- A fresh world and facade after init (widget id 0 assigned). -/
def initMap : World Nat × Map Nat := Map.init sampleWorld sampleMap

/-! The claims. -/

/-- Claim C1: for every array of N marker entries passed to addMarkers, the
facade's marker list grows by exactly N handles; the new handles are appended
in entry order after any previously stored handles (the prior facade state is
arbitrary, so repeated calls accumulate with no de-duplication); and the i-th
new handle (store id w.store.length + i) resolves to a marker whose data
field is the i-th entry and hence carries that entry's payload. -/
theorem addMarkers_appends_markers {δ : Type} (w : World δ) (m : Map δ)
    (es : List (MarkerEntry δ)) (cb : JVal) (i : Nat) (hi : i < es.length) :
    (Map.addMarkers w m es cb).2.markers.length = m.markers.length + es.length ∧
    (Map.addMarkers w m es cb).2.markers = m.markers ++ idsFrom w.store.length es.length ∧
    (Map.addMarkers w m es cb).1.store[w.store.length + i]? = some (newMarker m es[i]) ∧
    (newMarker m es[i]).data.data = es[i].data := by
  refine ⟨?_, ?_, ?_, rfl⟩
  · rw [addMarkers_snd]
    simp [idsFrom_length]
  · rw [addMarkers_snd]
  · rw [addMarkers_fst_store, getElem?_append_add, List.getElem?_map,
      List.getElem?_eq_getElem hi]
    rfl

/-- Witness for C1 on a concrete two-entry batch, second new handle. -/
theorem addMarkers_appends_markers_witness :
    (Map.addMarkers sampleWorld sampleMap sampleEntries (JVal.fn 7)).2.markers.length =
      sampleMap.markers.length + sampleEntries.length ∧
    (Map.addMarkers sampleWorld sampleMap sampleEntries (JVal.fn 7)).2.markers =
      sampleMap.markers ++ idsFrom sampleWorld.store.length sampleEntries.length ∧
    (Map.addMarkers sampleWorld sampleMap sampleEntries (JVal.fn 7)).1.store[sampleWorld.store.length + 1]? =
      some (newMarker sampleMap (sampleEntries.get ⟨1, by decide⟩)) ∧
    (newMarker sampleMap (sampleEntries.get ⟨1, by decide⟩)).data.data =
      (sampleEntries.get ⟨1, by decide⟩).data :=
  addMarkers_appends_markers sampleWorld sampleMap sampleEntries (JVal.fn 7) 1 (by decide)

/-- Claim C2 counterexample run: two entries carrying the same opaque payload
5 but different coordinates, added with callable onClick number 0. -/
def c2run : World Nat × Map Nat :=
  Map.addMarkers sampleWorld sampleMap
    [{ latLng := (1, 2), data := 5 }, { latLng := (3, 4), data := 5 }] (JVal.fn 0)

/-- Claim C2 is false as stated: the onClick callback is not invoked with the
entry's bare opaque payload.  Concretely, firing the click events of the two
markers above invokes the callback with two different arguments even though
both entries supplied the identical payload 5 — the argument is the marker's
data field, which the source sets to the whole coordsArray entry
(coordinates included), not to the entry's data payload alone. -/
theorem onClick_argument_not_bare_payload :
    fireListenerAt c2run.1 0 = [(0, { latLng := (1, 2), data := 5 })] ∧
    fireListenerAt c2run.1 1 = [(0, { latLng := (3, 4), data := 5 })] ∧
    ({ latLng := (1, 2), data := 5 } : MarkerEntry Nat).data =
      ({ latLng := (3, 4), data := 5 } : MarkerEntry Nat).data ∧
    fireListenerAt c2run.1 0 ≠ fireListenerAt c2run.1 1 := by
  refine ⟨rfl, rfl, rfl, ?_⟩
  decide

/-- Claim C2 amended: for every marker created by addMarkers(entries, onClick)
with callable onClick, when that marker's click event fires the callback is
invoked exactly once, with the whole i-th entry — the marker's attached data
object, whose data field is the entry's opaque payload — not with the bare
payload. -/
theorem onClick_receives_full_entry {δ : Type} (w : World δ) (m : Map δ)
    (es : List (MarkerEntry δ)) (fid : Nat) (i : Nat) (hi : i < es.length) :
    (Map.addMarkers w m es (JVal.fn fid)).1.listeners[w.listeners.length + i]? =
      some { target := w.store.length + i, eventName := "click", callback := JVal.fn fid } ∧
    fireListenerAt (Map.addMarkers w m es (JVal.fn fid)).1 (w.listeners.length + i) =
      [(fid, es[i])] := by
  have hl : (Map.addMarkers w m es (JVal.fn fid)).1.listeners[w.listeners.length + i]? =
      some { target := w.store.length + i, eventName := "click", callback := JVal.fn fid } := by
    rw [addMarkers_fst_listeners, getElem?_append_add, List.getElem?_map,
      idsFrom_getElem? _ _ _ hi]
    rfl
  have hs : (Map.addMarkers w m es (JVal.fn fid)).1.store[w.store.length + i]? =
      some (newMarker m es[i]) := by
    rw [addMarkers_fst_store, getElem?_append_add, List.getElem?_map,
      List.getElem?_eq_getElem hi]
    rfl
  refine ⟨hl, ?_⟩
  rw [fireListenerAt_eq _ _ _ hl, fireListener_fn _ _ _ _ _ hs]
  rfl

/-- Witness for the amended C2 on a concrete batch: the callback receives the
whole second entry. -/
theorem onClick_receives_full_entry_witness :
    (Map.addMarkers sampleWorld sampleMap sampleEntries (JVal.fn 3)).1.listeners[sampleWorld.listeners.length + 1]? =
      some { target := sampleWorld.store.length + 1, eventName := "click", callback := JVal.fn 3 } ∧
    fireListenerAt (Map.addMarkers sampleWorld sampleMap sampleEntries (JVal.fn 3)).1
      (sampleWorld.listeners.length + 1) = [(3, sampleEntries.get ⟨1, by decide⟩)] :=
  onClick_receives_full_entry sampleWorld sampleMap sampleEntries 3 1 (by decide)

/-- Claim C3: for every facade state, deleteMarkers first sets every stored
marker's visibility target to none (it factors through clearMarkers, which
hides all), then leaves the marker list empty; the facade — all fields other
than the emptied marker list untouched — is returned. -/
theorem deleteMarkers_hides_then_empties {δ : Type} (w : World δ) (m : Map δ) :
    Map.deleteMarkers w m = ((Map.clearMarkers w m).1, { m with markers := [] }) ∧
    (∀ j : Nat, (Map.deleteMarkers w m).1.store[j]? =
      (w.store[j]?).map (fun mk => if j ∈ m.markers then { mk with map := none } else mk)) ∧
    (Map.deleteMarkers w m).2.markers = [] := by
  refine ⟨rfl, ?_, rfl⟩
  intro j
  exact setMapLoop_getElem? w.store m.markers none j

/-- Claim C4: clearMarkers changes nothing in the facade — the marker handle
list keeps every element, in place, at unchanged length (the returned facade
equals the input facade) — and its only effect is to set each stored handle's
visibility target to none in the store, leaving every other marker field and
every unlisted marker untouched. -/
theorem clearMarkers_keeps_handles {δ : Type} (w : World δ) (m : Map δ) :
    (Map.clearMarkers w m).2 = m ∧
    (Map.clearMarkers w m).1.store.length = w.store.length ∧
    (∀ j : Nat, (Map.clearMarkers w m).1.store[j]? =
      (w.store[j]?).map (fun mk => if j ∈ m.markers then { mk with map := none } else mk)) := by
  refine ⟨rfl, ?_, ?_⟩
  · exact setMapLoop_length w.store m.markers none
  · intro j
    exact setMapLoop_getElem? w.store m.markers none j

/-- Claim C5: registering K callable callbacks on a fresh facade and then
invoking onMapInteract on that list with payload P calls each of the K
callbacks exactly once, in registration order, each receiving P (the trace is
exactly the registered ids paired with P, in order), and returns the facade;
the same holds for the zoom-callback list. -/
theorem onMapInteract_calls_each_once {δ π : Type} (e : Nat) (o : CtorOptions)
    (fids : List Nat) (P : π) :
    ((fids.foldl (fun acc f => Map.registerMapClickEvent acc (JVal.fn f))
        (Map.construct (δ := δ) e o)).onMapInteract ListName.mapClickCallbacks P).2 =
      fids.map (fun f => (f, P)) ∧
    ((fids.foldl (fun acc f => Map.registerMapClickEvent acc (JVal.fn f))
        (Map.construct (δ := δ) e o)).onMapInteract ListName.mapClickCallbacks P).1 =
      fids.foldl (fun acc f => Map.registerMapClickEvent acc (JVal.fn f)) (Map.construct (δ := δ) e o) ∧
    ((fids.foldl (fun acc f => Map.registerMapZoomEvent acc (JVal.fn f))
        (Map.construct (δ := δ) e o)).onMapInteract ListName.mapZoomCallbacks P).2 =
      fids.map (fun f => (f, P)) ∧
    ((fids.foldl (fun acc f => Map.registerMapZoomEvent acc (JVal.fn f))
        (Map.construct (δ := δ) e o)).onMapInteract ListName.mapZoomCallbacks P).1 =
      fids.foldl (fun acc f => Map.registerMapZoomEvent acc (JVal.fn f)) (Map.construct (δ := δ) e o) := by
  refine ⟨?_, rfl, ?_, rfl⟩
  · rw [foldl_registerClick]
    simp [Map.onMapInteract, Map.indexList, Map.construct, callLoop_eq_map]
  · rw [foldl_registerZoom]
    simp [Map.onMapInteract, Map.indexList, Map.construct, callLoop_eq_map]

/-- Claim C6: setZoom with a non-numeric argument is a no-op — the widget
store and the whole facade state are unchanged and the facade is returned —
while with a numeric argument the zoom is applied to the facade's widget. -/
theorem setZoom_numeric_guard {δ : Type} (w : World δ) (m : Map δ) (z : JVal) (q : JNum)
    (v : Nat) (hz : typeofIsNumber z = false) (hm : m.map = some v) :
    Map.setZoom w m z = Except.ok (w, m) ∧
    Map.setZoom w m (JVal.num q) =
      Except.ok ({ w with widgets := listModify w.widgets v (fun wg => { wg with zoom := q }) }, m) := by
  constructor
  · cases z <;> simp_all [Map.setZoom, typeofIsNumber]
  · simp [Map.setZoom, hm]

/-- Witness for C6: a string zoom argument is ignored on an initialized
facade, a numeric one is applied to widget 0. -/
theorem setZoom_numeric_guard_witness :
    Map.setZoom initMap.1 initMap.2 (JVal.str "seven") = Except.ok (initMap.1, initMap.2) ∧
    Map.setZoom initMap.1 initMap.2 (JVal.num 9) =
      Except.ok ({ initMap.1 with
        widgets := listModify initMap.1.widgets 0 (fun wg => { wg with zoom := 9 }) }, initMap.2) :=
  setZoom_numeric_guard initMap.1 initMap.2 (JVal.str "seven") 9 0 (by decide) rfl

/-- Claim C7: a callable argument to registerMapClickEvent or
registerMapZoomEvent is appended to the end of the corresponding callback
list (the rest of the facade untouched); a non-callable argument is silently
ignored, the facade — both callback lists included — unchanged; in both cases
the facade is returned. -/
theorem registerEvents_append_or_ignore {δ : Type} (m : Map δ) (f : Nat) (cb : JVal)
    (hcb : typeofIsFunction cb = false) :
    Map.registerMapClickEvent m (JVal.fn f) =
      { m with mapClickCallbacks := m.mapClickCallbacks ++ [f] } ∧
    Map.registerMapZoomEvent m (JVal.fn f) =
      { m with mapZoomCallbacks := m.mapZoomCallbacks ++ [f] } ∧
    Map.registerMapClickEvent m cb = m ∧
    Map.registerMapZoomEvent m cb = m := by
  refine ⟨rfl, rfl, ?_, ?_⟩ <;>
    cases cb <;>
      simp_all [typeofIsFunction, Map.registerMapClickEvent, Map.registerMapZoomEvent]

/-- Witness for C7 on a fresh facade with an undefined callback argument. -/
theorem registerEvents_append_or_ignore_witness :
    Map.registerMapClickEvent sampleMap (JVal.fn 4) =
      { sampleMap with mapClickCallbacks := sampleMap.mapClickCallbacks ++ [4] } ∧
    Map.registerMapZoomEvent sampleMap (JVal.fn 4) =
      { sampleMap with mapZoomCallbacks := sampleMap.mapZoomCallbacks ++ [4] } ∧
    Map.registerMapClickEvent sampleMap JVal.undef = sampleMap ∧
    Map.registerMapZoomEvent sampleMap JVal.undef = sampleMap :=
  registerEvents_append_or_ignore sampleMap 4 JVal.undef (by decide)

/-- Claim C8 is false as stated: a supplied initial-zoom option does not take
effect in the constructed widget options — the constructor builds a
hard-coded mapOptions literal (zoom 4) and reads no option key but icon. -/
theorem construct_ignores_zoom_option :
    (Map.construct (δ := Nat) 0 { zoom := some 10 }).mapOptions.zoom = 4 ∧
    (4 : JNum) ≠ (10 : JNum) := by
  constructor
  · rfl
  · decide

/-- Claim C8 amended: at construction the facade recognizes only the icon
path option (falling back to the built-in default when the option is absent
or falsy); the widget options — initial zoom, UI chrome toggles, initial
center, zoom-control placement and style — are the fixed built-in defaults
regardless of the supplied options, and every other supplied key (recognized
looking or not) is ignored. -/
theorem construct_recognizes_only_icon {δ : Type} (e : Nat) (o : CtorOptions)
    (s : String) (hs : s.isEmpty = false) :
    (Map.construct (δ := δ) e o).mapOptions = defaultMapOptions ∧
    (Map.construct (δ := δ) e { o with icon := some s }).icon = s ∧
    (Map.construct (δ := δ) e { o with icon := none }).icon = defaultIcon := by
  refine ⟨rfl, ?_, rfl⟩
  simp [Map.construct, jsOrString, hs]

/-- Witness for the amended C8: a non-empty icon option takes effect, widget
options stay at the defaults. -/
theorem construct_recognizes_only_icon_witness :
    (Map.construct (δ := Nat) 0 { zoom := some 10 }).mapOptions = defaultMapOptions ∧
    (Map.construct (δ := Nat) 0 { ({ zoom := some 10 } : CtorOptions) with icon := some "pin.png" }).icon = "pin.png" ∧
    (Map.construct (δ := Nat) 0 { ({ zoom := some 10 } : CtorOptions) with icon := none }).icon = defaultIcon :=
  construct_recognizes_only_icon 0 { zoom := some 10 } "pin.png" (by decide)

/-- Claim C9 evaluated at the failing input: when the google global is an
object but its maps namespace is absent, the require callback raises no error
and publishes the Map constructor anyway — the guard !google && !google.maps
short-circuits to false as soon as google is any object.  Moreover no
evaluation of the callback can ever raise the module's own load error (the
throw is dead code): the claim (and the guard's own error message) require a
fatal error exactly when the library is absent, so the code's conjunction is
a slip for a disjunction. -/
theorem requireCallback_publishes_without_maps :
    requireCallback (GoogleGlobal.object false) = Except.ok true ∧
    (∀ g : GoogleGlobal, requireCallback g ≠ Except.error JsError.mapsLoadError) := by
  refine ⟨rfl, ?_⟩
  intro g
  cases g <;> simp [requireCallback]

/-- Claim C10: a freshly constructed facade has an empty marker list, empty
click-callback and zoom-callback lists, and a null widget reference until
init assigns one; and after any sequence of register/addMarkers operations
the callback lists hold exactly the callable callbacks registered, in order,
and the marker handles resolve to exactly the entries added, in order. -/
theorem fresh_facade_accumulates_exactly {δ : Type} (e : Nat) (o : CtorOptions)
    (w : World δ) (ops : List (Op δ)) :
    (Map.construct (δ := δ) e o).markers = [] ∧
    (Map.construct (δ := δ) e o).mapClickCallbacks = [] ∧
    (Map.construct (δ := δ) e o).mapZoomCallbacks = [] ∧
    (Map.construct (δ := δ) e o).map = none ∧
    (Map.init w (Map.construct (δ := δ) e o)).2.map = some w.widgets.length ∧
    (runOps (w, Map.construct (δ := δ) e o) ops).2.mapClickCallbacks = opsClick ops ∧
    (runOps (w, Map.construct (δ := δ) e o) ops).2.mapZoomCallbacks = opsZoom ops ∧
    markersData (runOps (w, Map.construct (δ := δ) e o) ops).1
      (runOps (w, Map.construct (δ := δ) e o) ops).2 = (opsEntries ops).map some := by
  have hb : ∀ id ∈ (Map.construct (δ := δ) e o).markers, id < w.store.length := by
    intro id hid
    simp [Map.construct] at hid
  obtain ⟨h1, h2, h3, h4⟩ := runOps_invariant ops w (Map.construct (δ := δ) e o) hb
  refine ⟨rfl, rfl, rfl, rfl, rfl, ?_, ?_, ?_⟩
  · rw [h1]
    simp [Map.construct]
  · rw [h2]
    simp [Map.construct]
  · rw [h3]
    simp [markersData, Map.construct]

end GMaps
